import Mathlib

/-!
Route layer of the content-management site (`src/index.js`).

The file `src/index.js` registers a fixed set of Express routes.  Every handler
marshals form or query input, calls the content-service collaborator (and, for
article creation, the object store), and finishes the response with exactly one
of `render`, `send`, `redirect`, `json` or `end`.

Embedding.  A handler is a pure function of the request and of the outcomes of
the collaborator operations (a promise that resolves is `Except.ok`, one that
rejects is `Except.error`).  It returns the ordered list of collaborator calls
it made together with the final state of the response object.
-/

namespace Web322

/-! ## Data model -/

/-- Value of one parsed form or query field: a string, or the array produced by
a repeated or bracketed key.  An absent field (`undefined`) is `none` of
`Field`. -/
inductive FormValue where
  | text (s : String)
  | many (xs : List String)
  deriving DecidableEq, Repr

/-- Form or query field as seen by a handler; `none` is `undefined`. -/
abbrev Field := Option FormValue

/-- JavaScript truthiness of a field: `undefined` and `""` are falsy, every
other string and every array is truthy. -/
def truthy : Field → Bool
  | none => false
  | some (.text s) => decide (s ≠ "")
  | some (.many _) => true

/-- Strict comparison `field === "on"`. -/
def isOn : Field → Bool
  | some (.text s) => decide (s = "on")
  | _ => false

/-- Article as returned by the content service. -/
structure Article where
  id : String
  title : String
  content : String
  category : String
  featureImage : String
  published : Bool
  deriving DecidableEq, Repr

/-- Category as returned by the content service. -/
structure Category where
  id : Nat
  name : String
  deriving DecidableEq, Repr

/-- Object literal handed to `addArticle` / `updateArticle`. -/
structure ArticleData where
  title : Field
  content : Field
  category : Field
  featureImage : Field
  published : Bool
  deriving DecidableEq, Repr

/-- Rejection value of a collaborator promise; `message` is its `.message`
property (`none` when that property is `undefined`). -/
structure ServiceError where
  message : Option String
  deriving DecidableEq, Repr

/-- Result object passed by the object store to the upload callback. -/
structure UploadResult where
  url : String
  deriving DecidableEq, Repr

/-- Error object passed by the object store to the upload callback. -/
structure UploadError where
  message : String
  deriving DecidableEq, Repr

/-- Outcomes of the operations of `contentService` in its current state. -/
structure ContentService where
  getPublishedArticles : Except ServiceError (List Article)
  getCategories : Except ServiceError (List Category)
  getPosts : Except ServiceError (List Article)
  getPostsByCategory : Field → Except ServiceError (List Article)
  getPostsByMinDate : Field → Except ServiceError (List Article)
  getPostById : String → Except ServiceError Article
  addArticle : ArticleData → Except ServiceError Article
  updateArticle : String → ArticleData → Except ServiceError Article
  deleteArticle : String → Except ServiceError Unit

/-- Outcome of `cloudinary.uploader.upload_stream` on a buffer: the pair
`(error, result)` its callback receives. -/
abbrev ObjectStore := List Nat → Option UploadError × Option UploadResult

/-- Calls made on the collaborators, with their arguments. -/
inductive Call where
  | getPublishedArticles
  | getCategories
  | getPosts
  | getPostsByCategory (category : Field)
  | getPostsByMinDate (minDate : Field)
  | getPostById (id : String)
  | addArticle (data : ArticleData)
  | updateArticle (id : String) (data : ArticleData)
  | deleteArticle (id : String)
  | uploadStream (buffer : List Nat)
  deriving DecidableEq, Repr

/-- Locals object passed to `res.render`; a key that is not given is `none`. -/
structure ViewModel where
  title : Option String := none
  articles : Option (List Article) := none
  categories : Option (List Category) := none
  article : Option Article := none
  message : Option String := none
  deriving DecidableEq, Repr

/-- What the terminal response method produced. -/
inductive Body where
  | view (name : String) (locals : ViewModel)
  | text (s : String)
  | redirect (location : String)
  | json (payload : List (String × Option String))
  | empty
  deriving DecidableEq, Repr

/-- Response object `res`: status code and, once a terminal method ran, the
body. -/
structure Res where
  statusCode : Nat
  body : Option Body
  deriving DecidableEq, Repr

/-- Response as a handler receives it: status 200, nothing sent. -/
def Res.fresh : Res := ⟨200, none⟩

/-- Method `res.status(code)`. -/
def Res.status (r : Res) (code : Nat) : Res := { r with statusCode := code }

/-- Method `res.render(view, locals)`. -/
def Res.render (r : Res) (view : String) (locals : ViewModel) : Res :=
  { r with body := some (.view view locals) }

/-- Method `res.send(text)`. -/
def Res.send (r : Res) (s : String) : Res := { r with body := some (.text s) }

/-- Method `res.redirect(url)`: status 302 and a `Location`. -/
def Res.redirect (r : Res) (url : String) : Res :=
  { r with statusCode := 302, body := some (.redirect url) }

/-- Method `res.json(obj)`; the payload lists the keys of `obj`. -/
def Res.json (r : Res) (payload : List (String × Option String)) : Res :=
  { r with body := some (.json payload) }

/-- Method `res.end()`. -/
def Res.finish (r : Res) : Res := { r with body := some .empty }

/-- What one request did: collaborator calls in order, and the response. -/
structure Outcome where
  calls : List Call
  res : Res
  deriving DecidableEq, Repr

/-- Record a call made before the rest of the handler ran. -/
def Outcome.after (c : Call) (o : Outcome) : Outcome := { o with calls := c :: o.calls }

/-! ## Handlers -/

/-- `GET /` and `GET /about` (lines 24-26). -/
def handleAbout : Outcome :=
  ⟨[], Res.fresh.render "about" { title := some "About Us" }⟩

/-- `GET /home` (lines 29-46). -/
def handleHome (svc : ContentService) : Outcome :=
  match svc.getPublishedArticles with
  | .ok articles =>
    ⟨[.getPublishedArticles],
      Res.fresh.render "home" { title := some "Home", articles := some articles }⟩
  | .error _ =>
    ⟨[.getPublishedArticles],
      Res.fresh.render "index" { title := some "Home", articles := some [] }⟩

/-- `GET /articles` (lines 49-63). -/
def handleArticles (svc : ContentService) : Outcome :=
  match svc.getPublishedArticles with
  | .ok articles =>
    ⟨[.getPublishedArticles],
      Res.fresh.render "articles" { articles := some articles, title := some "Articles" }⟩
  | .error _ =>
    ⟨[.getPublishedArticles],
      Res.fresh.render "articles"
        { message := some "No articles available or error fetching.",
          articles := some [], title := some "Articles" }⟩

/-- `GET /categories` (lines 66-83). -/
def handleCategories (svc : ContentService) : Outcome :=
  match svc.getCategories with
  | .ok categories =>
    ⟨[.getCategories],
      Res.fresh.render "categories"
        { categories := some categories, title := some "Categories" }⟩
  | .error _ =>
    ⟨[.getCategories],
      Res.fresh.render "categories"
        { message := some "No categories available or error fetching.",
          categories := some [], title := some "Categories" }⟩

/-- `GET /articles/add` (lines 86-99). -/
def handleArticlesAddForm (svc : ContentService) : Outcome :=
  match svc.getCategories with
  | .ok categories =>
    ⟨[.getCategories],
      Res.fresh.render "addArticle"
        { title := some "Add Article", categories := some categories }⟩
  | .error _ =>
    ⟨[.getCategories],
      Res.fresh.render "addArticle" { title := some "Add Article", categories := some [] }⟩

/-- Request of `POST /articles/add`: the parsed body and `req.file`. -/
structure AddRequest where
  title : Field
  content : Field
  category : Field
  published : Field
  file : Option (List Nat)
  deriving DecidableEq, Repr

/-- Closure `processArticle` (lines 114-143). -/
def processArticle (svc : ContentService) (req : AddRequest) (imageUrl : String) : Outcome :=
  let published := isOn req.published
  if !truthy req.title || !truthy req.content || !truthy req.category then
    ⟨[], (Res.fresh.status 400).send "Missing required fields"⟩
  else
    let newArticle : ArticleData :=
      { title := req.title, content := req.content, category := req.category,
        featureImage := some (.text imageUrl), published := published }
    match svc.addArticle newArticle with
    | .ok _ => ⟨[.addArticle newArticle], Res.fresh.redirect "/articles"⟩
    | .error _ =>
      ⟨[.addArticle newArticle], (Res.fresh.status 500).send "Internal Server Error"⟩

/-- Closure `streamUpload` (lines 146-157): resolves with the result when the
callback got one, rejects with the error otherwise. -/
def streamUpload (store : ObjectStore) (buffer : List Nat) :
    Except (Option UploadError) UploadResult :=
  match store buffer with
  | (_, some result) => .ok result
  | (error, none) => .error error

/-- `POST /articles/add` (lines 110-170).  The collaborator operations return
promises, so `processArticle` does not throw inside the `then` callback and the
`catch` callback runs only when the upload itself rejects. -/
def handleArticlesAdd (svc : ContentService) (store : ObjectStore) (req : AddRequest) :
    Outcome :=
  match req.file with
  | some buffer =>
    match streamUpload store buffer with
    | .ok uploaded => (processArticle svc req uploaded.url).after (.uploadStream buffer)
    | .error _ => (processArticle svc req "").after (.uploadStream buffer)
  | none => processArticle svc req ""

/-- Query of `GET /posts`. -/
structure PostsQuery where
  category : Field
  minDate : Field
  deriving DecidableEq, Repr

/-- Payload `{ message: err.message }` of the `/posts` error responses. -/
def errorPayload (err : ServiceError) : List (String × Option String) :=
  [("message", err.message)]

/-- `GET /posts` (lines 173-198). -/
def handlePosts (svc : ContentService) (q : PostsQuery) : Outcome :=
  if truthy q.category then
    match svc.getPostsByCategory q.category with
    | .ok posts =>
      ⟨[.getPostsByCategory q.category],
        Res.fresh.render "articles" { articles := some posts, title := some "Articles" }⟩
    | .error err =>
      ⟨[.getPostsByCategory q.category], (Res.fresh.status 400).json (errorPayload err)⟩
  else if truthy q.minDate then
    match svc.getPostsByMinDate q.minDate with
    | .ok posts =>
      ⟨[.getPostsByMinDate q.minDate],
        Res.fresh.render "articles" { articles := some posts, title := some "Articles" }⟩
    | .error err =>
      ⟨[.getPostsByMinDate q.minDate], (Res.fresh.status 400).json (errorPayload err)⟩
  else
    match svc.getPosts with
    | .ok posts =>
      ⟨[.getPosts],
        Res.fresh.render "articles" { articles := some posts, title := some "Articles" }⟩
    | .error err => ⟨[.getPosts], (Res.fresh.status 400).json (errorPayload err)⟩

/-- `GET /post/:id` (lines 201-215). -/
def handlePost (svc : ContentService) (postId : String) : Outcome :=
  match svc.getPostById postId with
  | .ok post =>
    ⟨[.getPostById postId],
      Res.fresh.render "article" { article := some post, title := some post.title }⟩
  | .error _ =>
    ⟨[.getPostById postId],
      (Res.fresh.status 404).render "404" { message := some "Post not found" }⟩

/-- `GET /article/:id/modify` (lines 218-243). -/
def handleModify (svc : ContentService) (articleId : String) : Outcome :=
  match svc.getPostById articleId with
  | .ok article =>
    match svc.getCategories with
    | .ok categories =>
      ⟨[.getPostById articleId, .getCategories],
        Res.fresh.render "modify"
          { article := some article, categories := some categories,
            title := some "Modify Article" }⟩
    | .error _ =>
      ⟨[.getPostById articleId, .getCategories],
        (Res.fresh.status 500).send "Internal Server Error"⟩
  | .error _ =>
    ⟨[.getPostById articleId],
      (Res.fresh.status 404).render "404" { message := some "Article not found" }⟩

/-- Request of `POST /article/:id/update`: `req.params.id` and the parsed body. -/
structure UpdateRequest where
  id : String
  title : Field
  content : Field
  category : Field
  featureImage : Field
  published : Field
  deriving DecidableEq, Repr

/-- `POST /article/:id/update` (lines 246-270). -/
def handleUpdate (svc : ContentService) (req : UpdateRequest) : Outcome :=
  let articleId := req.id
  let isPublished := isOn req.published
  let updatedArticle : ArticleData :=
    { title := req.title, content := req.content, category := req.category,
      featureImage := req.featureImage, published := isPublished }
  match svc.updateArticle articleId updatedArticle with
  | .ok updatedPost =>
    ⟨[.updateArticle articleId updatedArticle],
      Res.fresh.redirect ("/article/" ++ updatedPost.id)⟩
  | .error _ =>
    ⟨[.updateArticle articleId updatedArticle],
      (Res.fresh.status 500).send "Internal Server Error"⟩

/-- `POST /article/:id/delete` (lines 273-285). -/
def handleDelete (svc : ContentService) (articleId : String) : Outcome :=
  match svc.deleteArticle articleId with
  | .ok _ => ⟨[.deleteArticle articleId], Res.fresh.redirect "/articles"⟩
  | .error _ =>
    ⟨[.deleteArticle articleId], (Res.fresh.status 500).send "Internal Server Error"⟩

/-- `GET /favicon.ico` (lines 288-290). -/
def handleFavicon : Outcome := ⟨[], (Res.fresh.status 204).finish⟩

/-! ## Route table -/

/-- HTTP methods used by the route table. -/
inductive Method where
  | GET
  | POST
  deriving DecidableEq, Repr

/-- Handler selected for a request, with the value of `req.params.id` where the
path pattern has one. -/
inductive Route where
  | about
  | home
  | articles
  | categories
  | articlesAddForm
  | articlesAdd
  | posts
  | post (id : String)
  | articleModify (id : String)
  | articleUpdate (id : String)
  | articleDelete (id : String)
  | favicon
  deriving DecidableEq, Repr

/-- One segment of a path pattern: a literal, or the parameter `:id`. -/
inductive Seg where
  | lit (s : String)
  | param
  deriving DecidableEq, Repr

/-- Split the characters of a path at every `/`. -/
def splitSlash : List Char → List (List Char)
  | [] => [[]]
  | c :: cs =>
    if c = '/' then [] :: splitSlash cs
    else
      match splitSlash cs with
      | [] => [[c]]
      | s :: ss => (c :: s) :: ss

/-- Drop one empty last segment: a single trailing `/` is optional. -/
def dropTrailingEmpty : List (List Char) → List (List Char)
  | [] => []
  | [[]] => []
  | s :: ss => s :: dropTrailingEmpty ss

/-- Segments of a request path; `none` when it does not start with `/`. -/
def pathSegments (path : String) : Option (List (List Char)) :=
  match path.toList with
  | '/' :: rest => some (dropTrailingEmpty (splitSlash rest))
  | _ => none

/-- Match path segments against a pattern, returning the captured parameters.
Literals compare case-insensitively; a parameter takes one non-empty segment. -/
def matchSegs : List Seg → List (List Char) → Option (List String)
  | [], [] => some []
  | .lit s :: ps, x :: xs =>
    if x.map Char.toLower = s.toList.map Char.toLower then matchSegs ps xs else none
  | .param :: ps, x :: xs =>
    if x = [] then none else (matchSegs ps xs).map (String.mk x :: ·)
  | _, _ => none

/-- Routes in the order `src/index.js` registers them: method, pattern, and the
handler built from the captured parameters. -/
def routeTable : List (Method × List Seg × (List String → Option Route)) :=
  [ (.GET, [], fun _ => some .about),
    (.GET, [.lit "about"], fun _ => some .about),
    (.GET, [.lit "home"], fun _ => some .home),
    (.GET, [.lit "articles"], fun _ => some .articles),
    (.GET, [.lit "categories"], fun _ => some .categories),
    (.GET, [.lit "articles", .lit "add"], fun _ => some .articlesAddForm),
    (.POST, [.lit "articles", .lit "add"], fun _ => some .articlesAdd),
    (.GET, [.lit "posts"], fun _ => some .posts),
    (.GET, [.lit "post", .param], fun ps => ps.head?.map Route.post),
    (.GET, [.lit "article", .param, .lit "modify"], fun ps => ps.head?.map Route.articleModify),
    (.POST, [.lit "article", .param, .lit "update"], fun ps => ps.head?.map Route.articleUpdate),
    (.POST, [.lit "article", .param, .lit "delete"], fun ps => ps.head?.map Route.articleDelete),
    (.GET, [.lit "favicon.ico"], fun _ => some .favicon) ]

/-- First entry of a table that matches the method and the segments. -/
def firstMatch (m : Method) (segs : List (List Char)) :
    List (Method × List Seg × (List String → Option Route)) → Option Route
  | [] => none
  | (m0, pat, build) :: rest =>
    if m0 = m then
      match matchSegs pat segs with
      | some ps => build ps
      | none => firstMatch m segs rest
    else firstMatch m segs rest

/-- Handler the route table selects for a method and a path, `none` when no
route matches. -/
def route (m : Method) (path : String) : Option Route :=
  match pathSegments path with
  | some segs => firstMatch m segs routeTable
  | none => none

/-! ## Words of the specification -/

/-- A required field is missing when it is absent or the empty string. -/
def Missing (f : Field) : Prop := f = none ∨ f = some (.text "")

/-- Image URL the creation workflow resolves: the URL of the upload result when
a file is present and the upload callback got a result, the empty string
otherwise. -/
def resolvedImageUrl (store : ObjectStore) (file : Option (List Nat)) : String :=
  match file with
  | none => ""
  | some buffer =>
    match (store buffer).2 with
    | some result => result.url
    | none => ""

/-- Response decided by the outcome of a collaborator write in the creation
workflow: a redirect to `/articles`, or status 500 with plain text. -/
def writeReply (r : Except ServiceError Article) : Res :=
  match r with
  | .ok _ => ⟨302, some (.redirect "/articles")⟩
  | .error _ => ⟨500, some (.text "Internal Server Error")⟩

/-- Object literal `updatedArticle` built by the update handler. -/
def updatedArticleOf (req : UpdateRequest) : ArticleData :=
  ⟨req.title, req.content, req.category, req.featureImage, isOn req.published⟩

/-- Articles handed to `addArticle` among a list of calls. -/
def addedArticles : List Call → List ArticleData
  | [] => []
  | .addArticle a :: cs => a :: addedArticles cs
  | _ :: cs => addedArticles cs

/-- Some terminal method issued a redirect or rendered a view. -/
def Res.redirectsOrRenders (r : Res) : Bool :=
  match r.body with
  | some (.redirect _) => true
  | some (.view _ _) => true
  | _ => false

/-- A content service whose every operation rejects. -/
def failingService : ContentService :=
  { getPublishedArticles := .error ⟨some "down"⟩
    getCategories := .error ⟨some "down"⟩
    getPosts := .error ⟨some "down"⟩
    getPostsByCategory := fun _ => .error ⟨some "down"⟩
    getPostsByMinDate := fun _ => .error ⟨some "down"⟩
    getPostById := fun _ => .error ⟨some "down"⟩
    addArticle := fun _ => .error ⟨some "down"⟩
    updateArticle := fun _ _ => .error ⟨some "down"⟩
    deleteArticle := fun _ => .error ⟨some "down"⟩ }

/-- Sample article used in the concrete instances. -/
def sampleArticle : Article :=
  { id := "7", title := "T", content := "C", category := "Cat1",
    featureImage := "", published := true }

/-- A content service holding the single article `sampleArticle`, unpublished
from the point of view of `getPublishedArticles`. -/
def sampleService : ContentService :=
  { getPublishedArticles := .ok []
    getCategories := .ok [⟨1, "Cat1"⟩]
    getPosts := .ok [sampleArticle]
    getPostsByCategory := fun _ => .ok [sampleArticle]
    getPostsByMinDate := fun _ => .ok [sampleArticle]
    getPostById := fun _ => .ok sampleArticle
    addArticle := fun _ => .ok sampleArticle
    updateArticle := fun _ _ => .ok sampleArticle
    deleteArticle := fun _ => .ok () }

/-- A content service on which the unfiltered fetch and the published fetch
return the same sequence. -/
def publishedService : ContentService :=
  { sampleService with getPublishedArticles := .ok [sampleArticle] }

/-- A content service that finds the article but whose `getCategories`
rejects. -/
def categoriesDownService : ContentService :=
  { sampleService with getCategories := .error ⟨some "down"⟩ }

/-- A creation request with all required fields, `published` "on" and an image
file. -/
def sampleAddRequest : AddRequest :=
  ⟨some (.text "T"), some (.text "C"), some (.text "Cat1"), some (.text "on"), some [1, 2]⟩

/-- An update request for article "7" whose `published` field is "off". -/
def sampleUpdateRequest : UpdateRequest :=
  ⟨"7", some (.text "T"), some (.text "C"), some (.text "Cat1"), some (.text ""),
    some (.text "off")⟩

/-- An object store on which every upload fails. -/
def failingStore : ObjectStore := fun _ => (some ⟨"no credentials"⟩, none)

/-- An object store on which every upload succeeds. -/
def sampleStore : ObjectStore := fun _ => (none, some ⟨"http://img/1.png"⟩)

/-! ## Auxiliary facts -/

theorem truthy_eq_false_of_missing {f : Field} (h : Missing f) : truthy f = false := by
  rcases h with h | h <;> subst h <;> simp [truthy]

theorem truthy_of_not_missing {f : Field} (h : ¬ Missing f) : truthy f = true := by
  match f, h with
  | none, h => exact absurd (Or.inl rfl) h
  | some (.many _), _ => rfl
  | some (.text s), h =>
    have hs : s ≠ "" := fun e => h (Or.inr (by rw [e]))
    simp [truthy, hs]

theorem isOn_iff (f : Field) : isOn f = true ↔ f = some (.text "on") := by
  match f with
  | none => simp [isOn]
  | some (.many _) => simp [isOn]
  | some (.text s) => simp [isOn]

theorem processArticle_missing (svc : ContentService) (req : AddRequest) (imageUrl : String)
    (h : Missing req.title ∨ Missing req.content ∨ Missing req.category) :
    processArticle svc req imageUrl =
      ⟨[], ⟨400, some (.text "Missing required fields")⟩⟩ := by
  have hc : (!truthy req.title || !truthy req.content || !truthy req.category) = true := by
    rcases h with h | h | h <;> simp [truthy_eq_false_of_missing h]
  simp [processArticle, hc, Res.fresh, Res.status, Res.send]

theorem processArticle_valid (svc : ContentService) (req : AddRequest) (imageUrl : String)
    (ht : ¬ Missing req.title) (hc : ¬ Missing req.content) (hg : ¬ Missing req.category) :
    processArticle svc req imageUrl =
      ⟨[.addArticle ⟨req.title, req.content, req.category, some (.text imageUrl),
          isOn req.published⟩],
        writeReply (svc.addArticle ⟨req.title, req.content, req.category,
          some (.text imageUrl), isOn req.published⟩)⟩ := by
  simp only [processArticle, truthy_of_not_missing ht, truthy_of_not_missing hc,
    truthy_of_not_missing hg, writeReply]
  cases svc.addArticle ⟨req.title, req.content, req.category, some (.text imageUrl),
      isOn req.published⟩ <;>
    simp [Res.fresh, Res.status, Res.send, Res.redirect]

theorem handleArticlesAdd_eq (svc : ContentService) (store : ObjectStore) (req : AddRequest) :
    handleArticlesAdd svc store req =
      match req.file with
      | some buffer =>
        (processArticle svc req (resolvedImageUrl store req.file)).after (.uploadStream buffer)
      | none => processArticle svc req (resolvedImageUrl store req.file) := by
  unfold handleArticlesAdd resolvedImageUrl streamUpload
  cases req.file with
  | none => rfl
  | some buffer =>
    rcases hs : store buffer with ⟨e, _ | r⟩ <;> simp [hs]

theorem handleArticlesAdd_valid (svc : ContentService) (store : ObjectStore) (req : AddRequest)
    (ht : ¬ Missing req.title) (hc : ¬ Missing req.content) (hg : ¬ Missing req.category) :
    addedArticles (handleArticlesAdd svc store req).calls =
        [⟨req.title, req.content, req.category,
          some (.text (resolvedImageUrl store req.file)), isOn req.published⟩] ∧
      (handleArticlesAdd svc store req).res =
        writeReply (svc.addArticle ⟨req.title, req.content, req.category,
          some (.text (resolvedImageUrl store req.file)), isOn req.published⟩) := by
  rw [handleArticlesAdd_eq]
  cases req.file <;>
    simp [processArticle_valid svc req _ ht hc hg, Outcome.after, addedArticles]

theorem handleArticlesAdd_missing (svc : ContentService) (store : ObjectStore)
    (req : AddRequest)
    (h : Missing req.title ∨ Missing req.content ∨ Missing req.category) :
    addedArticles (handleArticlesAdd svc store req).calls = [] ∧
      (handleArticlesAdd svc store req).res =
        ⟨400, some (.text "Missing required fields")⟩ := by
  rw [handleArticlesAdd_eq]
  cases req.file <;>
    simp [processArticle_missing svc req _ h, Outcome.after, addedArticles]

theorem handleUpdate_calls (svc : ContentService) (req : UpdateRequest) :
    (handleUpdate svc req).calls = [.updateArticle req.id (updatedArticleOf req)] := by
  simp only [handleUpdate, updatedArticleOf]
  split <;> rfl

theorem handleUpdate_ok (svc : ContentService) (req : UpdateRequest) (post : Article)
    (h : svc.updateArticle req.id (updatedArticleOf req) = .ok post) :
    (handleUpdate svc req).res = ⟨302, some (.redirect ("/article/" ++ post.id))⟩ := by
  simp only [updatedArticleOf] at h
  simp [handleUpdate, h, Res.redirect, Res.fresh]

theorem handleUpdate_error (svc : ContentService) (req : UpdateRequest) (err : ServiceError)
    (h : svc.updateArticle req.id (updatedArticleOf req) = .error err) :
    (handleUpdate svc req).res = ⟨500, some (.text "Internal Server Error")⟩ := by
  simp only [updatedArticleOf] at h
  simp [handleUpdate, h, Res.status, Res.send, Res.fresh]

theorem splitSlash_ne_nil (cs : List Char) : splitSlash cs ≠ [] := by
  cases cs with
  | nil => simp [splitSlash]
  | cons c cs =>
    unfold splitSlash
    split
    · simp
    · split <;> simp

theorem splitSlash_article (cs : List Char) :
    splitSlash ('a' :: 'r' :: 't' :: 'i' :: 'c' :: 'l' :: 'e' :: '/' :: cs) =
      ['a', 'r', 't', 'i', 'c', 'l', 'e'] :: splitSlash cs := by
  simp [splitSlash]

theorem dropTrailingEmpty_cons_cons (a b : List Char) (rest : List (List Char)) :
    dropTrailingEmpty (a :: b :: rest) = a :: dropTrailingEmpty (b :: rest) := by
  simp [dropTrailingEmpty]

theorem pathSegments_article (k : String) :
    ∃ tail, pathSegments ("/article/" ++ k) = some (['a', 'r', 't', 'i', 'c', 'l', 'e'] :: tail) := by
  have h : ("/article/" ++ k).toList =
      '/' :: 'a' :: 'r' :: 't' :: 'i' :: 'c' :: 'l' :: 'e' :: '/' :: k.toList := by
    simp [String.toList]
  simp only [pathSegments, h, splitSlash_article]
  cases hs : splitSlash k.toList with
  | nil => exact absurd hs (splitSlash_ne_nil _)
  | cons s ss => exact ⟨_, by rw [dropTrailingEmpty_cons_cons]⟩

theorem firstMatch_article_not_post (tail : List (List Char)) (j : String) :
    firstMatch .GET (['a', 'r', 't', 'i', 'c', 'l', 'e'] :: tail) routeTable ≠
      some (.post j) := by
  simp only [routeTable, firstMatch, matchSegs]
  simp
  split
  · rename_i ps _
    cases ps.head? <;> simp
  · simp

/-! ## Claims -/

/-- C1: a `POST /articles/add` submission in which title, content or category is
absent or the empty string is answered with status 400 and the plain text
"Missing required fields", and `addArticle` is never called -- whether or not
an image file is present and whatever the upload did. -/
theorem articlesAdd_missing_fields_400 (svc : ContentService) (store : ObjectStore)
    (req : AddRequest)
    (h : Missing req.title ∨ Missing req.content ∨ Missing req.category) :
    (handleArticlesAdd svc store req).res = ⟨400, some (.text "Missing required fields")⟩ ∧
      ∀ a, Call.addArticle a ∉ (handleArticlesAdd svc store req).calls := by
  unfold handleArticlesAdd
  cases hf : req.file with
  | none => simp [processArticle_missing svc req _ h]
  | some buffer =>
    cases hu : streamUpload store buffer <;>
      simp [hu, processArticle_missing svc req _ h, Outcome.after]

/-- Instance of C1: an empty title, with an image whose upload succeeds. -/
theorem articlesAdd_missing_fields_400_witness :
    (handleArticlesAdd sampleService sampleStore
        ⟨some (.text ""), some (.text "C"), some (.text "Cat1"), none, some [1, 2]⟩).res
        = ⟨400, some (.text "Missing required fields")⟩ ∧
      ∀ a, Call.addArticle a ∉ (handleArticlesAdd sampleService sampleStore
        ⟨some (.text ""), some (.text "C"), some (.text "Cat1"), none, some [1, 2]⟩).calls :=
  articlesAdd_missing_fields_400 sampleService sampleStore
    ⟨some (.text ""), some (.text "C"), some (.text "Cat1"), none, some [1, 2]⟩
    (Or.inl (Or.inr rfl))

/-- C2: a `POST /articles/add` submission with non-empty title, content and
category calls `addArticle` exactly once; the `featureImage` of the article
passed is the URL returned by the upload when a file is present and the upload
succeeds, and the empty string when there is no file or the upload fails; the
response is decided by the outcome of `addArticle` alone (redirect to
`/articles` on success, status 500 on failure). -/
theorem articlesAdd_valid_single_addArticle (svc : ContentService) (store : ObjectStore)
    (req : AddRequest)
    (ht : ¬ Missing req.title) (hc : ¬ Missing req.content) (hg : ¬ Missing req.category) :
    ∃ a : ArticleData,
      addedArticles (handleArticlesAdd svc store req).calls = [a] ∧
      a.title = req.title ∧ a.content = req.content ∧ a.category = req.category ∧
      (req.file = none → a.featureImage = some (.text "")) ∧
      (∀ buffer result, req.file = some buffer → (store buffer).2 = some result →
        a.featureImage = some (.text result.url)) ∧
      (∀ buffer, req.file = some buffer → (store buffer).2 = none →
        a.featureImage = some (.text "")) ∧
      (∀ created, svc.addArticle a = .ok created →
        (handleArticlesAdd svc store req).res = ⟨302, some (.redirect "/articles")⟩) ∧
      (∀ err, svc.addArticle a = .error err →
        (handleArticlesAdd svc store req).res =
          ⟨500, some (.text "Internal Server Error")⟩) := by
  obtain ⟨hcalls, hres⟩ := handleArticlesAdd_valid svc store req ht hc hg
  refine ⟨_, hcalls, rfl, rfl, rfl, ?_, ?_, ?_, ?_, ?_⟩
  · intro hf
    simp [resolvedImageUrl, hf]
  · intro buffer result hf hr
    simp [resolvedImageUrl, hf, hr]
  · intro buffer hf hr
    simp [resolvedImageUrl, hf, hr]
  · intro created hok
    rw [hres, hok]
    rfl
  · intro err herr
    rw [hres, herr]
    rfl

/-- Instance of C2: valid fields, an image whose upload fails, a service that
accepts the article. -/
theorem articlesAdd_valid_single_addArticle_witness :
    ∃ a : ArticleData,
      addedArticles (handleArticlesAdd sampleService failingStore
        ⟨some (.text "T"), some (.text "C"), some (.text "Cat1"), some (.text "on"),
          some [1, 2]⟩).calls = [a] ∧
      a.featureImage = some (.text "") ∧
      (handleArticlesAdd sampleService failingStore
        ⟨some (.text "T"), some (.text "C"), some (.text "Cat1"), some (.text "on"),
          some [1, 2]⟩).res = ⟨302, some (.redirect "/articles")⟩ := by
  obtain ⟨a, h1, _, _, _, _, _, h7, h8, _⟩ :=
    articlesAdd_valid_single_addArticle sampleService failingStore
      ⟨some (.text "T"), some (.text "C"), some (.text "Cat1"), some (.text "on"),
        some [1, 2]⟩ (by simp [Missing]) (by simp [Missing]) (by simp [Missing])
  exact ⟨a, h1, h7 [1, 2] rfl rfl, h8 sampleArticle rfl⟩

/-- C6: in the creation workflow and in the update workflow the `published`
flag of the article passed to the collaborator is true exactly when the
submitted `published` field is the string "on"; for any other value and for an
absent field it is false.  A creation with valid fields passes exactly one
article to `addArticle`, a creation with a missing field passes none, and an
update passes exactly one article to `updateArticle`. -/
theorem published_true_iff_on (svc : ContentService) (store : ObjectStore)
    (addReq : AddRequest) (updReq : UpdateRequest) :
    (¬ Missing addReq.title → ¬ Missing addReq.content → ¬ Missing addReq.category →
      ∃ a, addedArticles (handleArticlesAdd svc store addReq).calls = [a] ∧
        (a.published = true ↔ addReq.published = some (.text "on"))) ∧
    (Missing addReq.title ∨ Missing addReq.content ∨ Missing addReq.category →
      addedArticles (handleArticlesAdd svc store addReq).calls = []) ∧
    ∃ a, (handleUpdate svc updReq).calls = [.updateArticle updReq.id a] ∧
      (a.published = true ↔ updReq.published = some (.text "on")) := by
  refine ⟨fun ht hc hg => ?_, fun h => ?_, ?_⟩
  · exact ⟨_, (handleArticlesAdd_valid svc store addReq ht hc hg).1,
      isOn_iff addReq.published⟩
  · exact (handleArticlesAdd_missing svc store addReq h).1
  · exact ⟨updatedArticleOf updReq, handleUpdate_calls svc updReq, isOn_iff updReq.published⟩

/-- Instance of C6: a creation with `published` "on" passes one article whose
flag is true, and an update with `published` "off" passes one whose flag is
false. -/
theorem published_true_iff_on_witness :
    (∃ a, addedArticles (handleArticlesAdd sampleService sampleStore sampleAddRequest).calls
        = [a] ∧ a.published = true) ∧
      ∃ a, (handleUpdate sampleService sampleUpdateRequest).calls =
        [.updateArticle "7" a] ∧ a.published = false := by
  have h := published_true_iff_on sampleService sampleStore sampleAddRequest
    sampleUpdateRequest
  obtain ⟨a, hcalls, hiff⟩ := h.1 (by simp [Missing, sampleAddRequest])
    (by simp [Missing, sampleAddRequest]) (by simp [Missing, sampleAddRequest])
  obtain ⟨u, hucalls, huiff⟩ := h.2.2
  refine ⟨⟨a, hcalls, hiff.2 rfl⟩, ⟨u, hucalls, ?_⟩⟩
  cases hu : u.published with
  | false => rfl
  | true => exact absurd (huiff.1 hu) (by decide)

/-- C7: `GET /posts` makes exactly one collaborator query, chosen by the query
string: `getPostsByCategory(category)` when category is non-empty (whatever
minDate is), otherwise `getPostsByMinDate(minDate)` when minDate is non-empty,
otherwise `getPosts()`; when that query succeeds the "articles" view is
rendered with exactly the sequence it returned. -/
theorem posts_single_query (svc : ContentService) (q : PostsQuery) :
    (¬ Missing q.category →
      (handlePosts svc q).calls = [.getPostsByCategory q.category] ∧
      ∀ posts, svc.getPostsByCategory q.category = .ok posts →
        (handlePosts svc q).res =
          ⟨200, some (.view "articles" { articles := some posts, title := some "Articles" })⟩) ∧
    (Missing q.category → ¬ Missing q.minDate →
      (handlePosts svc q).calls = [.getPostsByMinDate q.minDate] ∧
      ∀ posts, svc.getPostsByMinDate q.minDate = .ok posts →
        (handlePosts svc q).res =
          ⟨200, some (.view "articles" { articles := some posts, title := some "Articles" })⟩) ∧
    (Missing q.category → Missing q.minDate →
      (handlePosts svc q).calls = [.getPosts] ∧
      ∀ posts, svc.getPosts = .ok posts →
        (handlePosts svc q).res =
          ⟨200, some (.view "articles" { articles := some posts, title := some "Articles" })⟩) := by
  refine ⟨fun hc => ?_, fun hc hd => ?_, fun hc hd => ?_⟩
  · have h1 := truthy_of_not_missing hc
    constructor
    · simp only [handlePosts, h1, if_true]
      split <;> rfl
    · intro posts hp
      simp [handlePosts, h1, hp, Res.render, Res.fresh]
  · have h1 := truthy_eq_false_of_missing hc
    have h2 := truthy_of_not_missing hd
    constructor
    · simp only [handlePosts, h1, h2, if_true, Bool.false_eq_true, if_false]
      split <;> rfl
    · intro posts hp
      simp [handlePosts, h1, h2, hp, Res.render, Res.fresh]
  · have h1 := truthy_eq_false_of_missing hc
    have h2 := truthy_eq_false_of_missing hd
    constructor
    · simp only [handlePosts, h1, h2, Bool.false_eq_true, if_false]
      split <;> rfl
    · intro posts hp
      simp [handlePosts, h1, h2, hp, Res.render, Res.fresh]

/-- Instance of C7: both `category` and `minDate` given; the category query is
the one made. -/
theorem posts_single_query_witness :
    (handlePosts sampleService ⟨some (.text "Cat1"), some (.text "2024-01-01")⟩).calls =
        [.getPostsByCategory (some (.text "Cat1"))] ∧
      (handlePosts sampleService ⟨some (.text "Cat1"), some (.text "2024-01-01")⟩).res =
        ⟨200, some (.view "articles"
          { articles := some [sampleArticle], title := some "Articles" })⟩ :=
  have h := (posts_single_query sampleService
    ⟨some (.text "Cat1"), some (.text "2024-01-01")⟩).1 (by simp [Missing])
  ⟨h.1, h.2 [sampleArticle] rfl⟩

/-- C8: when `getPostById` fails for an identifier, `GET /post/:id` and
`GET /article/:id/modify` both answer with status 404 and render the view
"404"; the modify handler then never calls `getCategories`. -/
theorem post_and_modify_not_found (svc : ContentService) (id : String) (err : ServiceError)
    (h : svc.getPostById id = .error err) :
    (handlePost svc id).res =
        ⟨404, some (.view "404" { message := some "Post not found" })⟩ ∧
      (handleModify svc id).res =
        ⟨404, some (.view "404" { message := some "Article not found" })⟩ ∧
      Call.getCategories ∉ (handleModify svc id).calls := by
  simp [handlePost, handleModify, h, Res.fresh, Res.status, Res.render]

/-- Instance of C8 on a service whose every operation rejects. -/
theorem post_and_modify_not_found_witness :
    (handlePost failingService "7").res =
        ⟨404, some (.view "404" { message := some "Post not found" })⟩ ∧
      (handleModify failingService "7").res =
        ⟨404, some (.view "404" { message := some "Article not found" })⟩ ∧
      Call.getCategories ∉ (handleModify failingService "7").calls :=
  post_and_modify_not_found failingService "7" ⟨some "down"⟩ rfl

/-- C9: when `addArticle` fails in `POST /articles/add` with valid fields, when
`updateArticle` fails in `POST /article/:id/update`, when `deleteArticle` fails
in `POST /article/:id/delete`, and when `getCategories` fails after
`getPostById` succeeded in `GET /article/:id/modify`, the response has status
500 with the plain text "Internal Server Error" and neither a redirect nor a
view render is issued.  In each case the failing operation is the one the
handler really called: a valid creation passes exactly one article to
`addArticle`, and the calls of the other three handlers are as listed. -/
theorem write_failure_500 (svc : ContentService) (store : ObjectStore)
    (addReq : AddRequest) (updReq : UpdateRequest) (deleteId modifyId : String) :
    (¬ Missing addReq.title → ¬ Missing addReq.content → ¬ Missing addReq.category →
      ∃ a, addedArticles (handleArticlesAdd svc store addReq).calls = [a] ∧
        ∀ err, svc.addArticle a = .error err →
          (handleArticlesAdd svc store addReq).res =
              ⟨500, some (.text "Internal Server Error")⟩ ∧
            (handleArticlesAdd svc store addReq).res.redirectsOrRenders = false) ∧
    ((handleUpdate svc updReq).calls = [.updateArticle updReq.id (updatedArticleOf updReq)] ∧
      ∀ err, svc.updateArticle updReq.id (updatedArticleOf updReq) = .error err →
        (handleUpdate svc updReq).res = ⟨500, some (.text "Internal Server Error")⟩ ∧
          (handleUpdate svc updReq).res.redirectsOrRenders = false) ∧
    ((handleDelete svc deleteId).calls = [.deleteArticle deleteId] ∧
      ∀ err, svc.deleteArticle deleteId = .error err →
        (handleDelete svc deleteId).res = ⟨500, some (.text "Internal Server Error")⟩ ∧
          (handleDelete svc deleteId).res.redirectsOrRenders = false) ∧
    (∀ article err, svc.getPostById modifyId = .ok article → svc.getCategories = .error err →
      (handleModify svc modifyId).calls = [.getPostById modifyId, .getCategories] ∧
        (handleModify svc modifyId).res = ⟨500, some (.text "Internal Server Error")⟩ ∧
        (handleModify svc modifyId).res.redirectsOrRenders = false) := by
  refine ⟨fun ht hc hg => ?_, ⟨handleUpdate_calls svc updReq, fun err herr => ?_⟩,
    ⟨?_, fun err herr => ?_⟩, fun article err hok herr => ?_⟩
  · obtain ⟨hcalls, hres⟩ := handleArticlesAdd_valid svc store addReq ht hc hg
    refine ⟨_, hcalls, fun err herr => ?_⟩
    rw [hres, herr]
    exact ⟨rfl, rfl⟩
  · rw [handleUpdate_error svc updReq err herr]
    exact ⟨rfl, rfl⟩
  · simp only [handleDelete]
    split <;> rfl
  · simp [handleDelete, herr, Res.fresh, Res.status, Res.send, Res.redirectsOrRenders]
  · simp [handleModify, hok, herr, Res.fresh, Res.status, Res.send, Res.redirectsOrRenders]

/-- Instance of C9: a valid creation, an update and a delete on the service
whose every operation rejects, and the modify page on a service whose
`getCategories` rejects; all four answer 500 "Internal Server Error". -/
theorem write_failure_500_witness :
    (handleArticlesAdd failingService sampleStore sampleAddRequest).res =
        ⟨500, some (.text "Internal Server Error")⟩ ∧
      (handleUpdate failingService sampleUpdateRequest).res =
        ⟨500, some (.text "Internal Server Error")⟩ ∧
      (handleDelete failingService "7").res =
        ⟨500, some (.text "Internal Server Error")⟩ ∧
      (handleModify categoriesDownService "7").res =
        ⟨500, some (.text "Internal Server Error")⟩ := by
  have h := write_failure_500 failingService sampleStore sampleAddRequest
    sampleUpdateRequest "7" "7"
  obtain ⟨a, _, hadd⟩ := h.1 (by simp [Missing, sampleAddRequest])
    (by simp [Missing, sampleAddRequest]) (by simp [Missing, sampleAddRequest])
  have hmod := (write_failure_500 categoriesDownService sampleStore sampleAddRequest
    sampleUpdateRequest "7" "7").2.2.2 sampleArticle ⟨some "down"⟩ rfl rfl
  exact ⟨(hadd ⟨some "down"⟩ rfl).1, (h.2.1.2 ⟨some "down"⟩ rfl).1,
    (h.2.2.1.2 ⟨some "down"⟩ rfl).1, hmod.2.1⟩

/-- C3 (code as written): when `getPublishedArticles` fails, `GET /home` makes
that one fetch and renders the view "index" -- not "home" -- with title "Home"
and an empty articles list, status 200. -/
theorem home_failure_renders_index (svc : ContentService) (err : ServiceError)
    (h : svc.getPublishedArticles = .error err) :
    (handleHome svc).calls = [.getPublishedArticles] ∧
      (handleHome svc).res =
        ⟨200, some (.view "index" { title := some "Home", articles := some [] })⟩ ∧
      ∀ locals, (handleHome svc).res.body ≠ some (.view "home" locals) := by
  simp [handleHome, h, Res.fresh, Res.render]

/-- Instance of C3's failing input: the service whose every operation rejects. -/
theorem home_failure_renders_index_witness :
    (handleHome failingService).calls = [.getPublishedArticles] ∧
      (handleHome failingService).res =
        ⟨200, some (.view "index" { title := some "Home", articles := some [] })⟩ ∧
      ∀ locals, (handleHome failingService).res.body ≠ some (.view "home" locals) :=
  home_failure_renders_index failingService ⟨some "down"⟩ rfl

/-- C10 (code as written), on the service whose every operation rejects:
`GET /articles`, `GET /categories` and `GET /articles/add` render their own view
with an empty collection at status 200 (with a message for the first two), the
three branches of `GET /posts` answer 400 with a JSON object holding the key
`message`, but `GET /home` renders the view "index" instead of "home". -/
theorem collection_failure_at_failingService :
    (handleHome failingService).res =
        ⟨200, some (.view "index" { title := some "Home", articles := some [] })⟩ ∧
      (handleArticles failingService).res =
        ⟨200, some (.view "articles"
          { message := some "No articles available or error fetching.",
            articles := some [], title := some "Articles" })⟩ ∧
      (handleCategories failingService).res =
        ⟨200, some (.view "categories"
          { message := some "No categories available or error fetching.",
            categories := some [], title := some "Categories" })⟩ ∧
      (handleArticlesAddForm failingService).res =
        ⟨200, some (.view "addArticle"
          { title := some "Add Article", categories := some [] })⟩ ∧
      (handlePosts failingService ⟨some (.text "Cat1"), none⟩).res =
        ⟨400, some (.json [("message", some "down")])⟩ ∧
      (handlePosts failingService ⟨none, some (.text "2024-01-01")⟩).res =
        ⟨400, some (.json [("message", some "down")])⟩ ∧
      (handlePosts failingService ⟨none, none⟩).res =
        ⟨400, some (.json [("message", some "down")])⟩ := by
  decide

/-- C4 (code as written): when `updateArticle` succeeds and returns an article
with identifier `k`, `POST /article/:id/update` redirects to `/article/k`, and
the route table maps no such path to the single-article handler of
`GET /post/:id`, whatever `k` is. -/
theorem update_redirect_misses_post_route (svc : ContentService) (req : UpdateRequest)
    (post : Article) (h : svc.updateArticle req.id (updatedArticleOf req) = .ok post) :
    (handleUpdate svc req).res = ⟨302, some (.redirect ("/article/" ++ post.id))⟩ ∧
      ∀ j, route .GET ("/article/" ++ post.id) ≠ some (.post j) := by
  refine ⟨handleUpdate_ok svc req post h, fun j => ?_⟩
  obtain ⟨tail, ht⟩ := pathSegments_article post.id
  simp only [route, ht]
  exact firstMatch_article_not_post tail j

/-- Instance of C4's failing input: the update returns the article with
identifier "7"; the redirect goes to `/article/7`, which no route serves, while
the single-article view is at `/post/7`. -/
theorem update_redirect_misses_post_route_witness :
    ((handleUpdate sampleService ⟨"7", none, none, none, none, none⟩).res =
        ⟨302, some (.redirect ("/article/" ++ sampleArticle.id))⟩ ∧
      ∀ j, route .GET ("/article/" ++ sampleArticle.id) ≠ some (.post j)) ∧
      route .GET "/article/7" = none ∧ route .GET "/post/7" = some (.post "7") :=
  ⟨update_redirect_misses_post_route sampleService ⟨"7", none, none, none, none, none⟩
    sampleArticle rfl, by decide, by decide⟩

/-- C5, refuted at `sampleService`: `GET /posts` without query parameters and
`GET /articles` call different collaborator operations and render different
collections. -/
theorem posts_articles_differ_at_sampleService :
    (handlePosts sampleService ⟨none, none⟩).calls ≠ (handleArticles sampleService).calls ∧
      (handlePosts sampleService ⟨none, none⟩).res ≠ (handleArticles sampleService).res := by
  decide

/-- C5 as amended: `GET /posts` without query parameters delegates to
`getPosts` and `GET /articles` to `getPublishedArticles`; each renders the view
"articles" with title "Articles" and the collection its own fetch returned, so
the two responses coincide whenever the two fetches return the same sequence. -/
theorem posts_articles_same_when_fetches_agree (svc : ContentService) :
    (handlePosts svc ⟨none, none⟩).calls = [.getPosts] ∧
      (handleArticles svc).calls = [.getPublishedArticles] ∧
      (∀ posts, svc.getPosts = .ok posts →
        (handlePosts svc ⟨none, none⟩).res =
          ⟨200, some (.view "articles" { articles := some posts, title := some "Articles" })⟩) ∧
      (∀ articles, svc.getPublishedArticles = .ok articles →
        (handleArticles svc).res =
          ⟨200, some (.view "articles"
            { articles := some articles, title := some "Articles" })⟩) ∧
      (∀ xs, svc.getPosts = .ok xs → svc.getPublishedArticles = .ok xs →
        (handlePosts svc ⟨none, none⟩).res = (handleArticles svc).res) := by
  refine ⟨?_, ?_, fun posts hp => ?_, fun articles ha => ?_, fun xs hp ha => ?_⟩
  · simp only [handlePosts, truthy, Bool.false_eq_true, if_false]
    split <;> rfl
  · simp only [handleArticles]
    split <;> rfl
  · simp [handlePosts, truthy, hp, Res.fresh, Res.render]
  · simp [handleArticles, ha, Res.fresh, Res.render]
  · simp [handlePosts, handleArticles, truthy, hp, ha]

/-- Instance of the amended C5 on `publishedService`, where both fetches return
the same sequence. -/
theorem posts_articles_same_when_fetches_agree_witness :
    (handlePosts publishedService ⟨none, none⟩).res = (handleArticles publishedService).res :=
  (posts_articles_same_when_fetches_agree publishedService).2.2.2.2 [sampleArticle] rfl rfl

end Web322
